import Mathlib

/-!
Verification development for the print-spec module of the inkmap example
repository (file src/main/utils.js).  The JavaScript code is shallowly
embedded: numbers are modelled as exact rationals together with a NaN
marker (IEEE rounding is out of scope for every claim below), JavaScript
values that may be null or undefined are modelled by an explicit value
type, promises that may reject are modelled by Except, and the external
collaborators (coordinate reprojection, the geostyler style parser) are
parameters of the embedded functions.
-/

/-- A JavaScript number: an exact rational or NaN. -/
inductive JSNum where
  | num (q : ℚ)
  | nan
deriving DecidableEq, Repr

/-- JavaScript multiplication on numbers: NaN propagates. -/
def JSNum.mul : JSNum → JSNum → JSNum
  | .num a, .num b => .num (a * b)
  | _, _ => .nan

/-- A JavaScript value as it can appear at the resolution argument of
getScaleForResolution and at the result of map accessors: a number, a
string, null or undefined. -/
inductive JSVal where
  | vnum (n : JSNum)
  | vstr (s : String)
  | vnull
  | vundef
deriving DecidableEq, Repr

/-- JavaScript truthiness of such a value (NaN, 0, the empty string,
null and undefined are falsy). -/
def jsTruthy : JSVal → Bool
  | .vnum (.num q) => decide (q ≠ 0)
  | .vnum .nan => false
  | .vstr s => !s.isEmpty
  | .vnull => false
  | .vundef => false

/-- Value of a list of decimal digit characters. -/
def digitsToNat (l : List Char) : ℕ :=
  l.foldl (fun a c => 10 * a + (c.toNat - 48)) 0

/-- Modelled from the spec: the host-language decimal parser used by the
parseFloat builtin (external to the repository).  Parses an optional
sign, an integer part and an optional fraction from the front of the
character list; returns the parsed value and the unread rest. -/
def parseDecimal (l : List Char) : Option (ℚ × List Char) :=
  let sgn : ℚ := match l with
    | '-' :: _ => (-1 : ℚ)
    | _ => (1 : ℚ)
  let l1 : List Char := match l with
    | '-' :: t => t
    | '+' :: t => t
    | _ => l
  let ip := l1.takeWhile Char.isDigit
  let l2 := l1.dropWhile Char.isDigit
  match l2 with
  | '.' :: t =>
      let fp := t.takeWhile Char.isDigit
      let l3 := t.dropWhile Char.isDigit
      if ip.isEmpty && fp.isEmpty then none
      else some (sgn * ((digitsToNat ip : ℚ) + (digitsToNat fp : ℚ) / (10 : ℚ) ^ fp.length), l3)
  | _ => if ip.isEmpty then none else some (sgn * (digitsToNat ip : ℚ), l2)

/-- Modelled from the spec: the host parseFloat builtin (external to the
repository).  On a finite number it is the identity, on a string it
parses a leading decimal number, otherwise NaN. -/
def jsParseFloat : JSVal → JSNum
  | .vnum n => n
  | .vstr s =>
      match parseDecimal s.data with
      | some (q, _) => .num q
      | none => .nan
  | .vnull => .nan
  | .vundef => .nan

/-- Modelled from the spec: the host ToNumber coercion applied by the
multiplication operator (external to the repository): null is 0,
undefined is NaN, a string must parse completely (the empty string
is 0). -/
def jsToNumber : JSVal → JSNum
  | .vnum n => n
  | .vnull => .num 0
  | .vundef => .nan
  | .vstr s =>
      if s.isEmpty then .num 0
      else
        match parseDecimal s.data with
        | some (q, []) => .num q
        | _ => .nan

/-- Modelled from the spec: the fixed units-to-meters lookup table, which
the source imports from the external map library (METERS_PER_UNIT of
ol/proj/Units, not part of this repository).  The claims quantify over
the entries of the table, so only the key set matters; the entries for
degrees and radians, irrational in the library, are rational
representatives here. -/
def METERS_PER_UNIT : String → Option ℚ
  | "radians" => some (6370997 / (6283185307179586 / 1000000000000000))
  | "degrees" => some (111194.87428468118)
  | "ft" => some (0.3048)
  | "m" => some 1
  | "us-ft" => some (1200 / 3937)
  | _ => none

/-- Embedding of getScaleForResolution from src/main/utils.js.  The units
argument is the value read from the map view and may be absent
(undefined), in which case the table lookup misses. -/
def getScaleForResolution (resolution : JSVal) (units : Option String) : JSNum :=
  let dpi : ℚ := 25.4 / 0.28
  let mpu : JSVal := match units.bind METERS_PER_UNIT with
    | some q => .vnum (.num q)
    | none => .vundef
  let inchesPerMeter : ℚ := 39.37
  let base : JSVal := if jsTruthy resolution then .vnum (jsParseFloat resolution) else resolution
  (((jsToNumber base).mul (jsToNumber mpu)).mul (.num inchesPerMeter)).mul (.num dpi)

/-- WMS request parameters of a WMS source; getParams may return an
object without a LAYERS key. -/
structure WMSParams where
  LAYERS : Option String
deriving DecidableEq, Repr

/-- The tile grid exposed by a WMTS source: resolutions, extent and the
native matrix identifiers (which the translator ignores). -/
structure OlTileGrid where
  resolutions : List ℚ
  extent : List ℚ
  matrixIds : List String
deriving DecidableEq, Repr

/-- The value returned by getStyle on a vector layer: null, a uniform
style object, an array of style objects, or a per-feature style
function.  Style objects and functions are opaque to this module and
carried as tokens. -/
inductive OlStyleVal where
  | nullS
  | styleObj (s : ℕ)
  | styleArr (ss : List ℕ)
  | styleFn (f : ℕ)
deriving DecidableEq, Repr

/-- JavaScript truthiness of a style value: only null is falsy (an
object, an array and a function are all truthy). -/
def OlStyleVal.truthy : OlStyleVal → Bool
  | .nullS => false
  | _ => true

/-- The record returned by the external geostyler parser readStyle call:
an output style (possibly undefined) plus diagnostic fields, which the
source only logs. -/
structure GsStyle where
  output : Option ℕ
  errors : Option (List String)
  warnings : Option (List String)
  unsupportedProperties : Option (List String)
deriving DecidableEq, Repr

/-- The external style-translation collaborator: an async readStyle call
that can reject (Except.error) or resolve to a GsStyle record. -/
def StyleTranslator : Type := OlStyleVal → Except Unit GsStyle

/-- The data source of a map layer, one of the five recognized variants
of the instanceof dispatch in mapOlLayerToInkmap, or an unrecognized
source.  Each variant carries the values its read accessors return,
options standing for possibly-null or possibly-undefined results. -/
inductive OlSource where
  | tileWMS (urls : Option (List String)) (params : Option WMSParams)
  | imageWMS (url : Option String) (params : Option WMSParams)
  | wmts (tileGrid : Option OlTileGrid) (requestEncoding : String)
      (urls : Option (List String)) (layer : String) (projectionCode : String)
      (matrixSet : String) (format : String)
  | osm (url : String)
  | vector (features : List ℕ)
  | unrecognized
deriving DecidableEq, Repr

/-- A map layer: its source, its opacity, whether it is a VectorLayer
instance, and the value its getStyle accessor returns. -/

structure OlLayer where
  source : OlSource
  opacity : ℚ
  isVectorLayer : Bool
  style : OlStyleVal
deriving DecidableEq, Repr

/-- The view state read from the map: units and center may be
unreadable, the resolution accessor may yield null or undefined, and
the projection code may be unreadable as well. -/
structure OlView where
  units : Option String
  resolution : JSVal
  projectionCode : Option String
  center : Option (ℚ × ℚ)
deriving DecidableEq, Repr

/-- The read-only map handle: view state and the ordered layer list. -/
structure OlMap where
  view : OlView
  layers : List OlLayer
deriving DecidableEq, Repr

/-- The tile grid of an output WMTS descriptor; every field is undefined
when the source tile grid is null. -/
structure InkTileGrid where
  resolutions : Option (List ℚ)
  extent : Option (List ℚ)
  matrixIds : Option (List ℕ)
deriving DecidableEq, Repr

/-- A normalized output layer descriptor, tagged by its type field. -/
inductive InkmapLayer where
  | wms (url : String) (opacity : ℚ) (attribution : String)
      (layer : Option String) (tiled : Bool)
  | wmtsL (requestEncoding : String) (url : String) (layer : String)
      (projection : String) (matrixSet : String) (tileGrid : InkTileGrid)
      (format : String) (opacity : ℚ) (attribution : String)
  | xyz (url : String) (opacity : ℚ) (attribution : String) (tiled : Bool)
  | geojson (geojson : List ℕ) (style : Option ℕ) (attribution : String)
deriving DecidableEq, Repr

/-- The opacity field of a descriptor, when the variant has one (the
GeoJSON variant built by the source has none). -/
def InkmapLayer.opacityField : InkmapLayer → Option ℚ
  | .wms _ o _ _ _ => some o
  | .wmtsL _ _ _ _ _ _ _ o _ => some o
  | .xyz _ o _ _ => some o
  | .geojson _ _ _ => none

/-- The matrixIds of the tile grid of a descriptor, for the WMTS
variant. -/
def InkmapLayer.gridMatrixIds : InkmapLayer → Option (List ℕ)
  | .wmtsL _ _ _ _ _ g _ _ _ => g.matrixIds
  | _ => none

/-- Modelled from the spec: the external GeoJSON serializer
writeFeaturesObject (from the map library, not part of this
repository); features are opaque tokens and the serialized feature
collection is identified with the feature list. -/
def writeFeaturesObject (features : List ℕ) : List ℕ := features

/-- Embedding of the mapOlLayerToInkmap arrow function of
src/main/utils.js.  The async function body is modelled in Except: an
error is a rejected promise.  Console logging of the geostyler
diagnostics has no observable effect and is dropped. -/
def mapOlLayerToInkmap (readStyle : StyleTranslator) (olLayer : OlLayer) :
    Except Unit (Option InkmapLayer) :=
  let opacity := olLayer.opacity
  match olLayer.source with
  | .tileWMS urls params =>
      .ok (some (.wms ((urls.bind List.head?).getD ("")) opacity ("")
        (params.bind WMSParams.LAYERS) true))
  | .imageWMS url params =>
      .ok (some (.wms (url.getD ("")) opacity ("")
        (params.bind WMSParams.LAYERS) false))
  | .wmts tileGrid requestEncoding urls layerName projCode matrixSet fmt =>
      let resolutions := tileGrid.map OlTileGrid.resolutions
      let matrixIds := resolutions.map (fun rs => rs.enum.map Prod.fst)
      let grid : InkTileGrid :=
        { resolutions := tileGrid.map OlTileGrid.resolutions
          extent := tileGrid.map OlTileGrid.extent
          matrixIds := matrixIds }
      .ok (some (.wmtsL requestEncoding ((urls.bind List.head?).getD (""))
        layerName projCode matrixSet grid fmt opacity ("")))
  | .osm _ =>
      .ok (some (.xyz ("https://\x7ba-c\x7d.tile.openstreetmap.org/\x7bz\x7d/\x7bx\x7d/\x7by\x7d.png")
        opacity ("© OpenStreetMap (www.openstreetmap.org)") true))
  | .vector features =>
      let geojson := writeFeaturesObject features
      let olStyle : OlStyleVal :=
        if olLayer.isVectorLayer then olLayer.style else .nullS
      if olStyle.truthy then
        match readStyle olStyle with
        | .error e => .error e
        | .ok gsStyle => .ok (some (.geojson geojson gsStyle.output ("")))
      else
        .ok (some (.geojson geojson none ("")))
  | .unrecognized => .ok none

/-- The two failure modes of fromOlMap: the synchronous throw when the
view state is incomplete, and the generic rejection produced by the
catch handler when any layer translation rejects. -/
inductive FromOlMapError where
  | incompleteViewState
  | genericFailure
deriving DecidableEq, Repr

/-- The assembled print specification document. -/
structure PrintConfig where
  layers : List InkmapLayer
  size : ℚ × ℚ × String
  center : ℚ × ℚ
  dpi : ℚ
  scale : JSNum
  scaleBar : String × String
  projection : Option String
  northArrow : String
  attributions : String
deriving DecidableEq, Repr

/-- Promise.all over already-launched promises: resolves to the list of
results when every promise resolves, rejects when any rejects. -/
def promiseAll {ε α : Type} : List (Except ε α) → Except ε (List α)
  | [] => .ok []
  | .error e :: _ => .error e
  | .ok a :: xs =>
      match promiseAll xs with
      | .error e => .error e
      | .ok as => .ok (a :: as)

/-- JavaScript falsiness of an optional string (undefined or empty). -/
def jsStrFalsy : Option String → Bool
  | none => true
  | some s => s.isEmpty

/-- The resolution check of the guard: strict equality against null or
against undefined. -/
def isNullOrUndef : JSVal → Bool
  | .vnull => true
  | .vundef => true
  | _ => false

/-- Embedding of fromOlMap from src/main/utils.js.  The external
reprojection collaborator toLonLat and the style collaborator are
parameters.  The synchronous throw and the promise rejection are both
modelled in Except, with distinct error values. -/
def fromOlMap (toLonLat : ℚ × ℚ → Option String → ℚ × ℚ)
    (readStyle : StyleTranslator) (olMap : OlMap) :
    Except FromOlMapError PrintConfig :=
  let unit := olMap.view.units
  let resolution := olMap.view.resolution
  let projection := olMap.view.projectionCode
  let scale := getScaleForResolution resolution unit
  let center := olMap.view.center
  if jsStrFalsy unit || center.isNone || isNullOrUndef resolution then
    .error .incompleteViewState
  else
    let centerLonLat := toLonLat (center.getD (0, 0)) projection
    let layerPromises := olMap.layers.map (mapOlLayerToInkmap readStyle)
    match promiseAll layerPromises with
    | .error _ => .error .genericFailure
    | .ok responses =>
        let layers := responses.filterMap id
        .ok { layers := layers
              size := (400, 240, "mm")
              center := centerLonLat
              dpi := 120
              scale := scale
              scaleBar := ("bottom-left", "metric")
              projection := projection
              northArrow := "top-right"
              attributions := "bottom-right" }

/-- Whether an Except value is an error (a rejected promise). -/
def isErrB {ε α : Type} : Except ε α → Bool
  | .error _ => true
  | .ok _ => false

deriving instance DecidableEq for Except

/-- A style translator for the C1 witness map: it resolves for the style
of the first vector layer and rejects for every other style. -/
def w1readStyle : StyleTranslator := fun sv =>
  match sv with
  | .styleObj 1 => .ok { output := some 10, errors := none, warnings := none,
                         unsupportedProperties := none }
  | _ => .error ()

/-- A trivial reprojection collaborator for witnesses. -/
def w1toLonLat (c : ℚ × ℚ) (_p : Option String) : ℚ × ℚ := c

/-- The C1 witness map: complete view state, two vector layers whose
styles are translated by w1readStyle, the second rejecting. -/
def w1map : OlMap :=
  { view := { units := some ("m"), resolution := .vnum (.num 2),
              projectionCode := some ("EPSG:3857"), center := some (1, 2) }
    layers := [ { source := .vector [1], opacity := 1, isVectorLayer := true,
                  style := .styleObj 1 },
                { source := .vector [2], opacity := 1, isVectorLayer := true,
                  style := .styleObj 2 } ] }

/-- Whether a layer translation resolved to a descriptor (rather than
rejecting or resolving to null). -/
def translatedToSome (readStyle : StyleTranslator) (l : OlLayer) : Bool :=
  match mapOlLayerToInkmap readStyle l with
  | .ok (some _) => true
  | _ => false

/-- The descriptor inside a settled layer promise, none for a rejection
or a null result. -/
def resolvedLayer : Except Unit (Option InkmapLayer) → Option InkmapLayer
  | .ok o => o
  | .error _ => none

/-- A style translator for the C2 witness: resolves every style. -/
def w2readStyle : StyleTranslator := fun _ =>
  .ok { output := some 3, errors := none, warnings := none, unsupportedProperties := none }

/-- Layers before the unrecognized one in the C2 witness map. -/
def w2pre : List OlLayer :=
  [ { source := .osm ("x"), opacity := 1, isVectorLayer := false, style := .nullS } ]

/-- The unrecognized layer of the C2 witness map. -/
def w2bad : OlLayer :=
  { source := .unrecognized, opacity := 1, isVectorLayer := false, style := .nullS }

/-- Layers after the unrecognized one in the C2 witness map. -/
def w2post : List OlLayer :=
  [ { source := .imageWMS (some ("http://img")) (some { LAYERS := some ("foo") }),
      opacity := 1, isVectorLayer := false, style := .nullS } ]

/-- The C2 witness map: three layers of which the middle one has an
unrecognized source. -/
def w2map : OlMap :=
  { view := { units := some ("x"), resolution := .vnum (.num 2),
              projectionCode := some ("EPSG:3857"), center := some (1, 2) }
    layers := w2pre ++ w2bad :: w2post }

/-- The spec fromOlMap assembles for the C2 witness map. -/
def w2config : PrintConfig :=
  { layers := [ .xyz ("https://\x7ba-c\x7d.tile.openstreetmap.org/\x7bz\x7d/\x7bx\x7d/\x7by\x7d.png")
                  1 ("© OpenStreetMap (www.openstreetmap.org)") true,
                .wms ("http://img") 1 ("") (some ("foo")) false ]
    size := (400, 240, "mm")
    center := (1, 2)
    dpi := 120
    scale := .nan
    scaleBar := ("bottom-left", "metric")
    projection := some ("EPSG:3857")
    northArrow := "top-right"
    attributions := "bottom-right" }

/-- A resolving style translator for the C3 input maps. -/
def c3readStyle : StyleTranslator := fun _ =>
  .ok { output := some 1, errors := none, warnings := none, unsupportedProperties := none }

/-- The C3 counterexample map: units, center and resolution are present
but the projection code cannot be read. -/
def c3map : OlMap :=
  { view := { units := some ("x"), resolution := .vnum (.num 2),
              projectionCode := none, center := some (1, 2) }
    layers := [] }

/-- A rejecting style translator, never reached by non-vector layers. -/
def w4readStyle : StyleTranslator := fun _ => .error ()

/-- The C4 witness tile grid: its native matrix identifiers are
non-contiguous strings. -/
def w4grid : OlTileGrid :=
  { resolutions := [156543, 78271, 39135], extent := [0, 0, 1, 1],
    matrixIds := ["EPSG:3857:0", "EPSG:3857:5", "EPSG:3857:9"] }

/-- The C4 witness layer: WMTS-backed with the w4grid tile grid. -/
def w4layer : OlLayer :=
  { source := .wmts (some w4grid) ("REST") (some ["http://wmts"]) ("lyr")
      ("EPSG:3857") ("GoogleMapsCompatible") ("image/png"),
    opacity := 1, isVectorLayer := false, style := .nullS }

/-- The C7 witness layer: an OSM source configured with an unrelated
URL. -/
def w7layer : OlLayer :=
  { source := .osm ("http://mirror.example/osm/tiles"), opacity := 1,
    isVectorLayer := false, style := .nullS }

/-- A style translator that resolves every style with output token 5,
used in the C5 counterexample. -/
def c5readStyleOk : StyleTranslator := fun _ =>
  .ok { output := some 5, errors := none, warnings := none, unsupportedProperties := none }

/-- A style translator that rejects every style, used in the C5
counterexample. -/
def c5readStyleErr : StyleTranslator := fun _ => .error ()

/-- The C5 counterexample layer: a vector layer whose style is a
per-feature style function. -/
def c5layer : OlLayer :=
  { source := .vector [1], opacity := 1, isVectorLayer := true, style := .styleFn 7 }

/-- The C5 witness translator: resolves a style function f with output
token f + 1. -/
def w5readStyle : StyleTranslator := fun sv =>
  match sv with
  | .styleFn f => .ok { output := some (f + 1), errors := none, warnings := none,
                        unsupportedProperties := none }
  | _ => .error ()

/-- The C5 witness layer: vector-backed with style function 9. -/
def w5layer : OlLayer :=
  { source := .vector [4, 5], opacity := 1, isVectorLayer := true, style := .styleFn 9 }

/-- The C8 witness layer: Tiled WMS with LAYERS foo and one endpoint. -/
def w8layer : OlLayer :=
  { source := .tileWMS (some ["http://x/wms"]) (some { LAYERS := some ("foo") }),
    opacity := 1, isVectorLayer := false, style := .nullS }

/-- Whether a source is the feature/vector-backed variant. -/
def OlSource.isVectorSource : OlSource → Bool
  | .vector _ => true
  | _ => false

/-- A style translator resolving with no output, for the C10 input. -/
def c10readStyle : StyleTranslator := fun _ =>
  .ok { output := none, errors := none, warnings := none, unsupportedProperties := none }

/-- The C10 counterexample layer: vector-backed with opacity 1/2. -/
def c10layer : OlLayer :=
  { source := .vector [2], opacity := 1 / 2, isVectorLayer := false, style := .nullS }

/-- The C10 witness layer: a Tiled-WMS layer with opacity 1/4 whose
descriptor carries exactly that opacity. -/
def w10layer : OlLayer :=
  { source := .tileWMS (some ["http://t"]) none, opacity := 1 / 4,
    isVectorLayer := false, style := .nullS }

theorem getScaleForResolution_num (r : ℚ) (us : Option String) :
    getScaleForResolution (.vnum (.num r)) us =
      (((JSNum.num r).mul (jsToNumber (match us.bind METERS_PER_UNIT with
        | some q => .vnum (.num q)
        | none => .vundef))).mul (.num 39.37)).mul (.num (25.4 / 0.28)) := by
  unfold getScaleForResolution
  by_cases h : r = 0
  · subst h
    simp [jsTruthy, jsToNumber]
  · simp [jsTruthy, h, jsParseFloat, jsToNumber]

theorem promiseAll_ok_imp {ε α : Type} :
    ∀ (xs : List (Except ε α)) (rs : List α),
      promiseAll xs = .ok rs → xs = rs.map Except.ok := by
  intro xs
  induction xs with
  | nil =>
      intro rs h
      simp [promiseAll] at h
      simp [← h]
  | cons x xs ih =>
      intro rs h
      cases x with
      | error e => simp [promiseAll] at h
      | ok a =>
          cases hrec : promiseAll xs with
          | error e => simp [promiseAll, hrec] at h
          | ok as =>
              simp [promiseAll, hrec] at h
              subst h
              simp [ih as hrec]

theorem promiseAll_error_of_any {ε α : Type} :
    ∀ xs : List (Except ε α), xs.any isErrB = true →
      ∃ e, promiseAll xs = .error e := by
  intro xs
  induction xs with
  | nil => intro h; simp at h
  | cons x xs ih =>
      intro h
      cases x with
      | error e => exact ⟨e, rfl⟩
      | ok a =>
          simp [isErrB] at h
          obtain ⟨e, he⟩ := ih (by simpa using h)
          exact ⟨e, by simp [promiseAll, he]⟩

theorem length_filterMap_all_isSome {α β : Type} (g : α → Option β) :
    ∀ L : List α, (∀ l ∈ L, (g l).isSome) → (L.filterMap g).length = L.length := by
  intro L
  induction L with
  | nil => intro _; rfl
  | cons x xs ih =>
      intro h
      obtain ⟨b, hb⟩ := Option.isSome_iff_exists.mp (h x (by simp))
      simp [List.filterMap_cons, hb, ih (fun l hl => h l (by simp [hl]))]

/-- Claim C6: for every rational resolution and every units key present in
the lookup table, getScaleForResolution returns exactly
resolution * metersPerUnit * 39.37 * (25.4 / 0.28); in particular the
scale of resolution 0 is 0 and the function is linear in the
resolution. -/
theorem c6_scale_formula_and_linearity (r m : ℚ) (u : String)
    (hm : METERS_PER_UNIT u = some m) :
    getScaleForResolution (.vnum (.num r)) (some u) = .num (r * m * 39.37 * (25.4 / 0.28))
    ∧ getScaleForResolution (.vnum (.num 0)) (some u) = .num 0
    ∧ getScaleForResolution (.vnum (.num (2 * r))) (some u) =
        (JSNum.num 2).mul (getScaleForResolution (.vnum (.num r)) (some u)) := by
  have key : ∀ x : ℚ, getScaleForResolution (.vnum (.num x)) (some u) =
      .num (x * m * 39.37 * (25.4 / 0.28)) := by
    intro x
    rw [getScaleForResolution_num]
    simp [hm, jsToNumber, JSNum.mul]
  refine ⟨key r, ?_, ?_⟩
  · rw [key 0]; norm_num
  · rw [key (2 * r), key r]
    simp [JSNum.mul]
    ring

/-- Witness for C6 at resolution 3 and the meters key. -/
theorem c6_witness :
    METERS_PER_UNIT ("m") = some 1
    ∧ getScaleForResolution (.vnum (.num 3)) (some ("m")) =
        .num (3 * 1 * 39.37 * (25.4 / 0.28)) :=
  ⟨by decide, (c6_scale_formula_and_linearity 3 1 ("m") (by decide)).1⟩

/-- Claim C9: getScaleForResolution is total (it always yields a value,
never an exception) for every resolution value and every units
argument, and for a positive numeric resolution with a units key absent
from the table the result is NaN. -/
theorem c9_scale_total_and_nan_on_missing_key (res : JSVal) (us : Option String)
    (q : ℚ) (u : String) (hq : 0 < q) (hu : METERS_PER_UNIT u = none) :
    (∃ out : JSNum, getScaleForResolution res us = out)
    ∧ getScaleForResolution (.vnum (.num q)) (some u) = .nan := by
  refine ⟨⟨_, rfl⟩, ?_⟩
  rw [getScaleForResolution_num]
  simp [hu, jsToNumber, JSNum.mul]

/-- Witness for C9 at resolution 5, null resolution for the totality
part, and an unknown units key. -/
theorem c9_witness :
    0 < (5 : ℚ)
    ∧ METERS_PER_UNIT ("nautical-miles") = none
    ∧ getScaleForResolution (.vnum (.num 5)) (some ("nautical-miles")) = .nan :=
  ⟨by norm_num, by decide,
    (c9_scale_total_and_nan_on_missing_key .vnull none 5 ("nautical-miles")
      (by norm_num) (by decide)).2⟩

theorem fromOlMap_ok_inv (toLonLat : ℚ × ℚ → Option String → ℚ × ℚ)
    (readStyle : StyleTranslator) (olMap : OlMap) (config : PrintConfig)
    (h : fromOlMap toLonLat readStyle olMap = .ok config) :
    (jsStrFalsy olMap.view.units || olMap.view.center.isNone
      || isNullOrUndef olMap.view.resolution) = false
    ∧ ∃ rs, promiseAll (olMap.layers.map (mapOlLayerToInkmap readStyle)) = .ok rs
        ∧ config.layers = rs.filterMap id := by
  simp only [fromOlMap] at h
  split at h
  · simp at h
  · next hcond =>
    refine ⟨by rw [Bool.eq_false_iff]; exact hcond, ?_⟩
    split at h
    · simp at h
    · next rs hrs =>
      refine ⟨rs, hrs, ?_⟩
      have h2 := Except.ok.inj h
      rw [← h2]

/-- Claim C1: if the translation of any layer rejects (for example the
style-translation collaborator throwing for one vector layer), fromOlMap
rejects as a whole with the generic failure, never resolving with a
partial spec, even when every other layer translation resolved. -/
theorem c1_any_rejection_rejects_whole (toLonLat : ℚ × ℚ → Option String → ℚ × ℚ)
    (readStyle : StyleTranslator) (olMap : OlMap)
    (hview : (jsStrFalsy olMap.view.units || olMap.view.center.isNone
      || isNullOrUndef olMap.view.resolution) = false)
    (herr : (olMap.layers.map (mapOlLayerToInkmap readStyle)).any isErrB = true) :
    fromOlMap toLonLat readStyle olMap = .error .genericFailure := by
  obtain ⟨e, he⟩ := promiseAll_error_of_any _ herr
  simp [fromOlMap, hview, he]

/-- Witness for C1: on the concrete two-vector-layer map where only the
second style translation rejects, fromOlMap rejects with the generic
failure. -/
theorem c1_witness :
    ((jsStrFalsy w1map.view.units || w1map.view.center.isNone
      || isNullOrUndef w1map.view.resolution) = false)
    ∧ ((w1map.layers.map (mapOlLayerToInkmap w1readStyle)).any isErrB = true)
    ∧ fromOlMap w1toLonLat w1readStyle w1map = .error .genericFailure :=
  ⟨by decide, by decide,
    c1_any_rejection_rejects_whole w1toLonLat w1readStyle w1map (by decide) (by decide)⟩

theorem mapOlLayerToInkmap_unrecognized (readStyle : StyleTranslator) (l : OlLayer)
    (h : l.source = .unrecognized) : mapOlLayerToInkmap readStyle l = .ok none := by
  simp [mapOlLayerToInkmap, h]

theorem mapOlLayerToInkmap_ok_none_iff (readStyle : StyleTranslator) (l : OlLayer) :
    mapOlLayerToInkmap readStyle l = .ok none ↔ l.source = .unrecognized := by
  constructor
  · intro h
    cases hs : l.source with
    | tileWMS urls params => simp [mapOlLayerToInkmap, hs] at h
    | imageWMS url params => simp [mapOlLayerToInkmap, hs] at h
    | wmts g re urls lay proj ms fmt => simp [mapOlLayerToInkmap, hs] at h
    | osm url => simp [mapOlLayerToInkmap, hs] at h
    | vector fs =>
        simp only [mapOlLayerToInkmap, hs] at h
        repeat' split at h
        all_goals simp at h
    | unrecognized => rfl
  · exact mapOlLayerToInkmap_unrecognized readStyle l

theorem resolvedLayer_isSome_of_translatedToSome (readStyle : StyleTranslator)
    (l : OlLayer) (h : translatedToSome readStyle l = true) :
    (resolvedLayer (mapOlLayerToInkmap readStyle l)).isSome := by
  unfold translatedToSome at h
  split at h
  · next d heq => simp [heq, resolvedLayer]
  · simp at h

/-- Claim C2: translateLayer resolves to null exactly for layers with an
unrecognized source; the layers of a successful spec are the non-null
translation results in input order; and when exactly the layer at
position k = pre.length is unrecognized while every other layer
translates to a descriptor, the output has length N - 1. -/
theorem c2_null_filtering_preserves_order (toLonLat : ℚ × ℚ → Option String → ℚ × ℚ)
    (readStyle : StyleTranslator) (olMap : OlMap) (config : PrintConfig)
    (pre post : List OlLayer) (lbad : OlLayer)
    (hok : fromOlMap toLonLat readStyle olMap = .ok config)
    (hshape : olMap.layers = pre ++ lbad :: post)
    (hbad : lbad.source = .unrecognized)
    (hothers : (pre ++ post).all (translatedToSome readStyle) = true) :
    (∀ l, mapOlLayerToInkmap readStyle l = .ok none ↔ l.source = .unrecognized)
    ∧ config.layers =
        (olMap.layers.map (mapOlLayerToInkmap readStyle)).filterMap resolvedLayer
    ∧ config.layers.length = olMap.layers.length - 1 := by
  obtain ⟨hview, rs, hrs, hlayers⟩ := fromOlMap_ok_inv toLonLat readStyle olMap config hok
  have hxs := promiseAll_ok_imp _ _ hrs
  have horder : config.layers =
      (olMap.layers.map (mapOlLayerToInkmap readStyle)).filterMap resolvedLayer := by
    rw [hxs, List.filterMap_map, hlayers]
    rfl
  refine ⟨fun l => mapOlLayerToInkmap_ok_none_iff readStyle l, horder, ?_⟩
  have hall := List.all_eq_true.mp hothers
  have hpre : ∀ l ∈ pre, ((resolvedLayer ∘ mapOlLayerToInkmap readStyle) l).isSome :=
    fun l hl => resolvedLayer_isSome_of_translatedToSome readStyle l
      (hall l (List.mem_append_left _ hl))
  have hpost : ∀ l ∈ post, ((resolvedLayer ∘ mapOlLayerToInkmap readStyle) l).isSome :=
    fun l hl => resolvedLayer_isSome_of_translatedToSome readStyle l
      (hall l (List.mem_append_right _ hl))
  have hbadnone : (resolvedLayer ∘ mapOlLayerToInkmap readStyle) lbad = none := by
    simp [Function.comp, mapOlLayerToInkmap_unrecognized readStyle lbad hbad, resolvedLayer]
  have hlen : config.layers.length = pre.length + post.length := by
    rw [horder, hshape, List.filterMap_map, List.filterMap_append,
      List.filterMap_cons_none hbadnone]
    simp [List.length_append, length_filterMap_all_isSome _ pre hpre,
      length_filterMap_all_isSome _ post hpost]
  have hN : olMap.layers.length = pre.length + post.length + 1 := by
    rw [hshape]; simp [List.length_append]; omega
  omega

/-- Witness for C2: a three-layer map whose middle layer is unrecognized
produces a two-descriptor spec preserving the order of the other two. -/
theorem c2_witness :
    fromOlMap w1toLonLat w2readStyle w2map = .ok w2config
    ∧ w2bad.source = .unrecognized
    ∧ (w2pre ++ w2post).all (translatedToSome w2readStyle) = true
    ∧ w2config.layers.length = w2map.layers.length - 1 :=
  ⟨by decide, by decide, by decide,
    (c2_null_filtering_preserves_order w1toLonLat w2readStyle w2map w2config w2pre w2post
      w2bad (by decide) (by decide) (by decide) (by decide)).2.2⟩

/-- Claim C3, counterexample: on a map whose projection code cannot be
read while the unit system, center and resolution are all present,
fromOlMap succeeds instead of failing, so the projection field is not
validated as present and the claim that all four view-state fields are
validated is false on the code. -/
theorem c3_counterexample :
    c3map.view.projectionCode = none
    ∧ c3map.view.units = some ("x")
    ∧ c3map.view.center = some (1, 2)
    ∧ c3map.view.resolution = .vnum (.num 2)
    ∧ (fromOlMap w1toLonLat c3readStyle c3map).toOption.isSome = true
    ∧ fromOlMap w1toLonLat c3readStyle c3map ≠ .error .incompleteViewState :=
  ⟨rfl, rfl, rfl, rfl, by decide, by decide⟩

/-- Claim C3 (amended): fromOlMap fails with the incomplete-view-state
error when the unit system, center, or resolution cannot be read from
the map, resolution being checked against both null and undefined while
resolution 0 is accepted as valid, and the failure occurs before any
layer translation work starts (the rejection holds for every layer list
and every style translator); only these three view-state fields are
validated — the projection code is read but never checked. -/
theorem c3_amended_three_field_validation (toLonLat : ℚ × ℚ → Option String → ℚ × ℚ)
    (readStyle : StyleTranslator) (view : OlView) (layers : List OlLayer) :
    ((jsStrFalsy view.units || view.center.isNone || isNullOrUndef view.resolution) = true →
      fromOlMap toLonLat readStyle ⟨view, layers⟩ = .error .incompleteViewState)
    ∧ (jsStrFalsy view.units = false → view.center.isNone = false →
        view.resolution = .vnum (.num 0) →
        fromOlMap toLonLat readStyle ⟨view, layers⟩ ≠ .error .incompleteViewState) := by
  constructor
  · intro h
    simp [fromOlMap, h]
  · intro h1 h2 h3
    simp only [fromOlMap, h1, h2, h3, isNullOrUndef, Bool.or_false, Bool.or_self]
    split
    · simp_all
    · split <;> simp

/-- Witness for C3 (amended): a map with undefined resolution is
rejected with the incomplete-view-state failure, and a map with
resolution 0 is not. -/
theorem c3_witness :
    ((jsStrFalsy (OlView.units ⟨some ("x"), .vundef, none, some (1, 2)⟩)
      || (OlView.center ⟨some ("x"), .vundef, none, some (1, 2)⟩).isNone
      || isNullOrUndef (OlView.resolution ⟨some ("x"), .vundef, none, some (1, 2)⟩)) = true)
    ∧ fromOlMap w1toLonLat c3readStyle ⟨⟨some ("x"), .vundef, none, some (1, 2)⟩, []⟩ =
        .error .incompleteViewState
    ∧ fromOlMap w1toLonLat c3readStyle ⟨⟨some ("x"), .vnum (.num 0), none, some (1, 2)⟩, []⟩ ≠
        .error .incompleteViewState :=
  ⟨by decide,
    (c3_amended_three_field_validation w1toLonLat c3readStyle
      ⟨some ("x"), .vundef, none, some (1, 2)⟩ []).1 (by decide),
    (c3_amended_three_field_validation w1toLonLat c3readStyle
      ⟨some ("x"), .vnum (.num 0), none, some (1, 2)⟩ []).2 (by decide) (by decide) rfl⟩

/-- Claim C4: for a WMTS-backed layer whose source tile grid has N
resolutions, the translated descriptor has matrixIds equal to the
zero-based contiguous sequence 0..N-1, parallel to the resolutions and
independent of the matrix identifiers the source grid exposes; for a
grid with three resolutions the matrixIds are exactly [0, 1, 2]. -/
theorem c4_wmts_matrix_ids_zero_based (readStyle : StyleTranslator) (l : OlLayer)
    (g : OlTileGrid) (re : String) (urls : Option (List String))
    (lay proj ms fmt : String)
    (hsrc : l.source = .wmts (some g) re urls lay proj ms fmt) :
    mapOlLayerToInkmap readStyle l =
      .ok (some (.wmtsL re ((urls.bind List.head?).getD ("")) lay proj ms
        { resolutions := some g.resolutions, extent := some g.extent,
          matrixIds := some (List.range g.resolutions.length) }
        fmt l.opacity ("")))
    ∧ (g.resolutions.length = 3 → List.range g.resolutions.length = [0, 1, 2]) := by
  constructor
  · simp [mapOlLayerToInkmap, hsrc, List.enum_map_fst]
  · intro h3
    rw [h3]
    rfl

/-- Witness for C4: the concrete WMTS layer with string matrix
identifiers still gets matrixIds [0, 1, 2]. -/
theorem c4_witness :
    w4layer.source = .wmts (some w4grid) ("REST") (some ["http://wmts"]) ("lyr")
      ("EPSG:3857") ("GoogleMapsCompatible") ("image/png")
    ∧ w4grid.matrixIds = ["EPSG:3857:0", "EPSG:3857:5", "EPSG:3857:9"]
    ∧ mapOlLayerToInkmap w4readStyle w4layer =
        .ok (some (.wmtsL ("REST") ("http://wmts") ("lyr") ("EPSG:3857")
          ("GoogleMapsCompatible")
          { resolutions := some [156543, 78271, 39135], extent := some [0, 0, 1, 1],
            matrixIds := some [0, 1, 2] }
          ("image/png") 1 (""))) :=
  ⟨rfl, rfl, by
    have h := (c4_wmts_matrix_ids_zero_based w4readStyle w4layer w4grid ("REST")
      (some ["http://wmts"]) ("lyr") ("EPSG:3857") ("GoogleMapsCompatible")
      ("image/png") rfl).1
    simpa using h⟩

/-- Claim C7: a recognized public-basemap (OSM) layer is translated to
the XYZ descriptor with the fixed hardcoded tile URL template and the
fixed hardcoded attribution string, regardless of the URL configured on
the underlying source object. -/
theorem c7_osm_fixed_url_and_attribution (readStyle : StyleTranslator) (l : OlLayer)
    (url : String) (hsrc : l.source = .osm url) :
    mapOlLayerToInkmap readStyle l =
      .ok (some (.xyz ("https://\x7ba-c\x7d.tile.openstreetmap.org/\x7bz\x7d/\x7bx\x7d/\x7by\x7d.png")
        l.opacity ("© OpenStreetMap (www.openstreetmap.org)") true)) := by
  simp [mapOlLayerToInkmap, hsrc]

/-- Witness for C7: the configured source URL is ignored and the fixed
template and attribution appear in the descriptor. -/
theorem c7_witness :
    w7layer.source = .osm ("http://mirror.example/osm/tiles")
    ∧ mapOlLayerToInkmap w4readStyle w7layer =
        .ok (some (.xyz ("https://\x7ba-c\x7d.tile.openstreetmap.org/\x7bz\x7d/\x7bx\x7d/\x7by\x7d.png")
          1 ("© OpenStreetMap (www.openstreetmap.org)") true)) :=
  ⟨rfl, c7_osm_fixed_url_and_attribution w4readStyle w7layer
    ("http://mirror.example/osm/tiles") rfl⟩

/-- Claim C5, counterexample: for a vector layer whose style is a
per-feature style function the collaborator IS invoked (its output
populates the descriptor style field, and its rejection rejects the
translation), so the claim that the style stays unset and the
collaborator is never invoked is false on the code. -/
theorem c5_counterexample :
    c5layer.style = .styleFn 7
    ∧ mapOlLayerToInkmap c5readStyleOk c5layer = .ok (some (.geojson [1] (some 5) ("")))
    ∧ mapOlLayerToInkmap c5readStyleErr c5layer = .error () :=
  ⟨rfl, by decide, by decide⟩

/-- Claim C5 (amended): a per-feature style function on a vector layer
is not special-cased: being truthy, it is handed to the
style-translation collaborator like a uniform style and the descriptor
style field is set to whatever output the collaborator returns (the
translation rejecting when the collaborator rejects); the style stays
unset only when getStyle yields a falsy value or the layer is not a
vector-layer instance. -/
theorem c5_amended_style_function_reaches_translator (readStyle : StyleTranslator)
    (l : OlLayer) (fs : List ℕ) (fn : ℕ)
    (hsrc : l.source = .vector fs) (hvl : l.isVectorLayer = true)
    (hst : l.style = .styleFn fn) :
    mapOlLayerToInkmap readStyle l =
      (readStyle (.styleFn fn)).map
        (fun gs => some (.geojson (writeFeaturesObject fs) gs.output (""))) := by
  simp only [mapOlLayerToInkmap, hsrc, hvl, if_true, hst]
  cases h : readStyle (.styleFn fn) <;> simp [OlStyleVal.truthy, h, Except.map]

/-- Witness for C5 (amended) at the concrete layer with style function
9: the translation result is exactly the collaborator result mapped
into a GeoJSON descriptor. -/
theorem c5_witness :
    w5layer.source = .vector [4, 5]
    ∧ w5layer.isVectorLayer = true
    ∧ w5layer.style = .styleFn 9
    ∧ mapOlLayerToInkmap w5readStyle w5layer =
        (w5readStyle (.styleFn 9)).map
          (fun gs => some (.geojson (writeFeaturesObject [4, 5]) gs.output (""))) :=
  ⟨rfl, rfl, rfl,
    c5_amended_style_function_reaches_translator w5readStyle w5layer [4, 5] 9 rfl rfl rfl⟩

/-- Claim C8: a Tiled-WMS-backed layer is translated to a WMS descriptor
with tiled true, url the first configured endpoint (empty string when
none are configured) and layer the LAYERS value of the source
parameters (undefined-safe when absent). -/
theorem c8_tiled_wms_descriptor (readStyle : StyleTranslator) (l : OlLayer)
    (urls : Option (List String)) (params : Option WMSParams)
    (hsrc : l.source = .tileWMS urls params) :
    mapOlLayerToInkmap readStyle l =
      .ok (some (.wms ((urls.bind List.head?).getD ("")) l.opacity ("")
        (params.bind WMSParams.LAYERS) true))
    ∧ (urls = none ∨ urls = some [] → (urls.bind List.head?).getD ("") = "")
    ∧ (∀ u rest, urls = some (u :: rest) → (urls.bind List.head?).getD ("") = u)
    ∧ (params = none → params.bind WMSParams.LAYERS = none) := by
  refine ⟨by simp [mapOlLayerToInkmap, hsrc], ?_, ?_, ?_⟩
  · rintro (h | h) <;> subst h <;> rfl
  · intro u rest h
    subst h
    rfl
  · intro h
    subst h
    rfl

/-- Witness for C8 at the concrete layer with LAYERS foo and endpoint
http://x/wms. -/
theorem c8_witness :
    w8layer.source = .tileWMS (some ["http://x/wms"]) (some { LAYERS := some ("foo") })
    ∧ mapOlLayerToInkmap w4readStyle w8layer =
        .ok (some (.wms ("http://x/wms") 1 ("") (some ("foo")) true)) :=
  ⟨rfl, by
    have h := (c8_tiled_wms_descriptor w4readStyle w8layer (some ["http://x/wms"])
      (some { LAYERS := some ("foo") }) rfl).1
    simpa using h⟩

/-- Claim C10, counterexample: a vector-backed layer with opacity 1/2 is
translated to a GeoJSON descriptor that carries no opacity field at
all, so the claim that every recognized variant carries the layer
opacity is false on the code. -/
theorem c10_counterexample :
    c10layer.opacity = 1 / 2
    ∧ mapOlLayerToInkmap c10readStyle c10layer = .ok (some (.geojson [2] none ("")))
    ∧ (InkmapLayer.geojson [2] none ("")).opacityField = none :=
  ⟨rfl, by decide, rfl⟩

/-- Claim C10 (amended): every descriptor produced by a successful layer
translation carries the layer opacity exactly for the four non-vector
recognized variants, while the GeoJSON descriptor of a vector-backed
layer carries no opacity field (the opacity is dropped). -/
theorem c10_amended_opacity_dropped_for_vector (readStyle : StyleTranslator)
    (l : OlLayer) (d : InkmapLayer)
    (h : mapOlLayerToInkmap readStyle l = .ok (some d)) :
    d.opacityField = if l.source.isVectorSource then none else some l.opacity := by
  obtain ⟨src, op, ivl, st⟩ := l
  cases src with
  | tileWMS urls params =>
      simp [mapOlLayerToInkmap] at h
      subst h
      simp [OlSource.isVectorSource, InkmapLayer.opacityField]
  | imageWMS url params =>
      simp [mapOlLayerToInkmap] at h
      subst h
      simp [OlSource.isVectorSource, InkmapLayer.opacityField]
  | wmts g re urls lay proj ms fmt =>
      simp [mapOlLayerToInkmap] at h
      subst h
      simp [OlSource.isVectorSource, InkmapLayer.opacityField]
  | osm url =>
      simp [mapOlLayerToInkmap] at h
      subst h
      simp [OlSource.isVectorSource, InkmapLayer.opacityField]
  | vector fs =>
      simp only [mapOlLayerToInkmap] at h
      repeat' split at h
      all_goals simp at h
      all_goals subst h
      all_goals simp [OlSource.isVectorSource, InkmapLayer.opacityField]
  | unrecognized =>
      simp [mapOlLayerToInkmap] at h

/-- Witness for C10 (amended) at a concrete non-vector layer. -/
theorem c10_witness :
    mapOlLayerToInkmap c10readStyle w10layer =
      .ok (some (.wms ("http://t") (1 / 4) ("") none true))
    ∧ (InkmapLayer.wms ("http://t") (1 / 4) ("") none true).opacityField =
        (if w10layer.source.isVectorSource then none else some w10layer.opacity) :=
  ⟨rfl,
    c10_amended_opacity_dropped_for_vector c10readStyle w10layer
      (.wms ("http://t") (1 / 4) ("") none true) rfl⟩
